import Mathlib

/-
Verification of the record decoder (preprocessing/decode_example.py) and the
model exporter (export.py) of the tf_classification repository, via a shallow
embedding of their control flow and data handling in Lean.
-/

set_option maxHeartbeats 1000000

namespace TfClassification

/-- Shape metadata of an image tensor carried through the embedding: framework
image-decoding primitives are modelled by their documented effect on the
height, width and channel dimensions. -/
structure Image where
  height : Nat
  width : Nat
  channels : Nat
deriving DecidableEq

/-- Scalar payload stored in a record field.  Floating point payloads are
carried opaquely (tagged by an integer identifier) because the decoder never
computes on them, only moves them; an encoded image byte string is carried
together with the shape of the image it encodes. -/
inductive Datum where
  | int (i : Int)
  | flt (tag : Int)
  | str (s : String)
  | bytes (img : Image)
deriving DecidableEq

/-- Result of parse_single_example for one feature key: a FixedLenFeature
parses to a dense tensor, a VarLenFeature parses to a SparseTensor that has
indices, values and a dense shape. -/
inductive ParsedValue where
  | dense (d : Datum)
  | sparse (indices : List Nat) (values : List Datum) (denseShape : Nat)
deriving DecidableEq

/-- Feature declarations appearing in the schema dictionary of
decode_serialized_example: tf.FixedLenFeature([], dtype) and
tf.VarLenFeature(dtype) for dtype among int64, float32, string. -/
inductive FeatureType where
  | fixedInt64
  | fixedFloat
  | fixedString
  | varInt64
  | varFloat
  | varString
deriving DecidableEq

/-- Whether a feature declaration is a VarLenFeature. -/
def isVarLen : FeatureType → Bool
  | .varInt64 => true
  | .varFloat => true
  | .varString => true
  | _ => false

/-- Lookup in an association list with string keys; this is the semantics of
indexing a Python dict literal (modulo the KeyError on a miss, which callers
model with Option/Except). -/
def lookupStr {α : Type} : List (String × α) → String → Option α
  | [], _ => none
  | (k, v) :: rest, key => if k = key then some v else lookupStr rest key

/-- Entries of the fixed schema dictionary built inside
decode_serialized_example (decode_example.py lines 18-46), in source order. -/
def schemaEntries : List (String × FeatureType) :=
  [ ("image/height", .fixedInt64),
    ("image/width", .fixedInt64),
    ("image/colorspace", .fixedString),
    ("image/channels", .fixedInt64),
    ("image/format", .fixedString),
    ("image/filename", .fixedString),
    ("image/id", .fixedString),
    ("image/encoded", .fixedString),
    ("image/extra", .fixedString),
    ("image/class/label", .fixedInt64),
    ("image/class/text", .fixedString),
    ("image/class/conf", .fixedFloat),
    ("image/object/bbox/xmin", .varFloat),
    ("image/object/bbox/xmax", .varFloat),
    ("image/object/bbox/ymin", .varFloat),
    ("image/object/bbox/ymax", .varFloat),
    ("image/object/bbox/label", .varInt64),
    ("image/object/bbox/text", .varString),
    ("image/object/bbox/conf", .varFloat),
    ("image/object/bbox/score", .varFloat),
    ("image/object/parts/x", .varFloat),
    ("image/object/parts/y", .varFloat),
    ("image/object/parts/v", .varInt64),
    ("image/object/parts/score", .varFloat),
    ("image/object/count", .fixedInt64),
    ("image/object/area", .varFloat),
    ("image/object/id", .varString) ]

/-- The fixed schema: feature key to feature declaration.  A `none` result is
where the Python dict lookup `{...}[feature_key]` raises KeyError. -/
def schema (k : String) : Option FeatureType := lookupStr schemaEntries k

/-- Error raised by the decoder: the KeyError from looking up an unrecognized
feature key in the schema dictionary. -/
inductive DecodeError where
  | keyError (key : String)
deriving DecidableEq

/-- First loop of decode_serialized_example (lines 16-46): build the feature
map for the requested keys, raising KeyError at the first key absent from the
schema dictionary. -/
def build_feature_map : List (String × String) → Except DecodeError (List (String × FeatureType))
  | [] => .ok []
  | (k, _) :: rest =>
    match schema k with
    | none => .error (.keyError k)
    | some t =>
      match build_feature_map rest with
      | .error e => .error e
      | .ok m => .ok ((k, t) :: m)

/-- Value bound to an output name by the decoder: either the parse result
passed through unchanged, the .values component of a sparse parse result, or
a decoded image tensor. -/
inductive Value where
  | tensor (v : ParsedValue)
  | flatValues (vs : List Datum)
  | image (img : Image)
deriving DecidableEq

/-- Models the framework primitive tf.image.decode_jpeg applied to a parsed
byte-string feature: with a positive channels argument the decoded pixel
tensor has exactly that many channels regardless of the channel count of the
source image; channels = 0 keeps the native channel count. -/
def decode_jpeg (v : ParsedValue) (channels : Nat) : Image :=
  match v with
  | .dense (.bytes img) => if channels = 0 then img else { img with channels := channels }
  | _ => { height := 0, width := 0, channels := channels }

/-- The .values component of a sparse parse result (empty on a dense tensor,
which the decoder never takes it from: VarLenFeature keys always parse to
sparse results). -/
def sparseValues : ParsedValue → List Datum
  | .sparse _ vs _ => vs
  | .dense _ => []

/-- One step of the dispatch chain of decode_serialized_example (lines
56-113): given the parse results `f` (what parse_single_example returned for
each requested key), the decode_image flag and a feature key, the value
stored for that key, or `none` when the key matches no branch of the chain
(the chain has no else clause, so such a key is silently skipped). -/
def decodeFeature (f : String → ParsedValue) (decode_image : Bool) (k : String) : Option Value :=
  if k = "image/height" then some (.tensor (f k))
  else if k = "image/width" then some (.tensor (f k))
  else if k = "image/colorspace" then some (.tensor (f k))
  else if k = "image/channels" then some (.tensor (f k))
  else if k = "image/format" then some (.tensor (f k))
  else if k = "image/filename" then some (.tensor (f k))
  else if k = "image/id" then some (.tensor (f k))
  else if k = "image/encoded" then
    some (if decode_image then .image (decode_jpeg (f k) 3) else .tensor (f k))
  else if k = "image/extra" then some (.tensor (f k))
  else if k = "image/class/label" then some (.tensor (f k))
  else if k = "image/class/text" then some (.tensor (f k))
  else if k = "image/class/conf" then some (.tensor (f k))
  else if k = "image/object/bbox/xmin" then some (.flatValues (sparseValues (f k)))
  else if k = "image/object/bbox/xmax" then some (.flatValues (sparseValues (f k)))
  else if k = "image/object/bbox/ymin" then some (.flatValues (sparseValues (f k)))
  else if k = "image/object/bbox/ymax" then some (.flatValues (sparseValues (f k)))
  else if k = "image/object/bbox/label" then some (.flatValues (sparseValues (f k)))
  else if k = "image/object/bbox/text" then some (.flatValues (sparseValues (f k)))
  else if k = "image/object/bbox/conf" then some (.flatValues (sparseValues (f k)))
  else if k = "image/object/bbox/score" then some (.flatValues (sparseValues (f k)))
  else if k = "image/object/parts/x" then some (.flatValues (sparseValues (f k)))
  else if k = "image/object/parts/y" then some (.flatValues (sparseValues (f k)))
  else if k = "image/object/parts/v" then some (.flatValues (sparseValues (f k)))
  else if k = "image/object/parts/score" then some (.flatValues (sparseValues (f k)))
  else if k = "image/object/count" then some (.tensor (f k))
  else if k = "image/object/area" then some (.flatValues (sparseValues (f k)))
  else if k = "image/object/id" then some (.flatValues (sparseValues (f k)))
  else none

/-- Python dict assignment d[name] = v: replace in place when the key exists,
append otherwise. -/
def dictInsert : List (String × Value) → String → Value → List (String × Value)
  | [], n, v => [(n, v)]
  | (m, w) :: rest, n, v =>
    if m = n then (n, v) :: rest else (m, w) :: dictInsert rest n v

/-- Python dict read d.get(name). -/
def dictLookup : List (String × Value) → String → Option Value
  | [], _ => none
  | (m, w) :: rest, n => if m = n then some w else dictLookup rest n

/-- Second loop of decode_serialized_example (lines 54-113): fold the
requested (key, output-name) pairs over the result dictionary, storing the
dispatched value under the output name (keys skipped by the dispatch chain
store nothing). -/
def decodeLoop (f : String → ParsedValue) (decode_image : Bool) :
    List (String × String) → List (String × Value) → List (String × Value)
  | [], acc => acc
  | kn :: rest, acc =>
    decodeLoop f decode_image rest
      (match decodeFeature f decode_image kn.1 with
       | some v => dictInsert acc kn.2 v
       | none => acc)

/-- The decoder decode_serialized_example: `f` abstracts the result of
tf.parse_single_example on the serialized record (the parse result for each
feature key; the dispatch loop reads only requested keys, which are exactly
the keys the parse was asked for).  The first loop builds the feature map
and raises KeyError on an unrecognized key; the second loop dispatches each
requested (key, output-name) pair into the result dictionary. -/
def decode_serialized_example (f : String → ParsedValue)
    (features_to_fetch : List (String × String)) (decode_image : Bool) :
    Except DecodeError (List (String × Value)) :=
  match build_feature_map features_to_fetch with
  | .error e => .error e
  | .ok _ => .ok (decodeLoop f decode_image features_to_fetch [])

/-- Default of the decode_image parameter in the Python signature
(decode_example.py line 7: decode_image=True). -/
def decode_image_default : Bool := true

/-- Calling the decoder without passing decode_image, as the Python default
argument does. -/
def decode_serialized_example_default (f : String → ParsedValue)
    (features_to_fetch : List (String × String)) :
    Except DecodeError (List (String × Value)) :=
  decode_serialized_example f features_to_fetch decode_image_default

/-- Shape of an image tensor inside the exported preprocessing graph: the
decode_image framework op can yield a rank-2 (height, width) tensor or a
rank-3 (height, width, channels) tensor, and preprocess_image normalizes
between them. -/
inductive ImgTensor where
  | r2 (height width : Nat)
  | r3 (height width channels : Nat)
deriving DecidableEq

/-- Models tf.rank on an image tensor. -/
def tensorRank : ImgTensor → Nat
  | .r2 _ _ => 2
  | .r3 _ _ _ => 3

/-- Models tf.shape(image)[2], the channel count of a rank-3 tensor (reading
dimension 2 of a rank-2 tensor is out of range, modelled as 0; the source
only reads it after forcing rank 3). -/
def numChannels : ImgTensor → Nat
  | .r2 _ _ => 0
  | .r3 _ _ c => c

/-- Models tf.expand_dims(image, 2) as applied by preprocess_image, which
only calls it on a rank-2 tensor, turning it into a one-channel rank-3
tensor. -/
def expandDimsLast : ImgTensor → ImgTensor
  | .r2 h w => .r3 h w 1
  | t => t

/-- Models tf.image.grayscale_to_rgb: replicates the single channel of a
rank-3 tensor three times. -/
def grayscale_to_rgb : ImgTensor → ImgTensor
  | .r3 h w _ => .r3 h w 3
  | t => t

/-- Models tf.expand_dims(image[:, :, 0], 2): keep only the first channel. -/
def takeFirstChannel : ImgTensor → ImgTensor
  | .r3 h w _ => .r3 h w 1
  | t => t

/-- Models image[:, :, :3]: keep at most the first three channels. -/
def firstThreeChannels : ImgTensor → ImgTensor
  | .r3 h w c => .r3 h w (Nat.min c 3)
  | t => t

/-- Models the expand_dims / tf.image.resize_bilinear / squeeze / rescale
sequence closing preprocess_image: the spatial dimensions become the target
input size and the channel count is preserved (rescaling to [-1, 1] does not
change the shape). -/
def resize_bilinear (t : ImgTensor) (target_height target_width : Nat) : ImgTensor :=
  match t with
  | .r3 _ _ c => .r3 target_height target_width c
  | .r2 _ _ => .r2 target_height target_width

/-- The nested preprocess_image function of export (export.py lines 97-144):
decode the image bytes (shape abstracted as the img argument), force rank 3,
then collapse 1-channel, 2-channel and more-than-3-channel images to 3
channels, and finally resize to the network input size.  As in the source,
num_channels is read once, before the channel-fixing conditionals. -/
def preprocess_image (img : ImgTensor) (input_height input_width : Nat) : ImgTensor :=
  let image := img
  let image := if tensorRank image = 2 then expandDimsLast image else image
  let num_channels := numChannels image
  let image := if num_channels = 1 then grayscale_to_rgb image else image
  let image := if num_channels = 2 then grayscale_to_rgb (takeFirstChannel image) else image
  let image := if 3 < num_channels then firstThreeChannels image else image
  resize_bilinear image input_height input_width

/-- Arguments of the export function (export.py lines 47-52), restricted to
those that steer control flow and artifact writing; the config, class names
and preprocessing toggles shape only the constructed graph, which the
embedding does not inspect. -/
structure ExportArgs where
  checkpoint_path : String
  export_dir : String
  export_version : Int
  export_for_serving : Bool
  export_tflite : Bool
  export_coreml : Bool
  add_preprocess_step : Bool
  output_classes : Bool
  batch_size : Option Int
  raveled_input : Bool
deriving DecidableEq

/-- Ambient state the export function consults: filesystem predicates
(os.path.exists, os.path.isdir), the checkpoint the framework finds in a
checkpoint directory (tf.train.latest_checkpoint), and whether the tfcoreml
dependency can be imported. -/
structure ExportEnv where
  export_dir_exists : Bool
  checkpoint_isdir : Bool
  latest_checkpoint : Option String
  tfcoreml_available : Bool
  save_dir_exists : Bool
deriving DecidableEq

/-- Filesystem side effects of export, in program order: directory creation
and the four kinds of artifact writes (frozen graph at line 316, serving
bundle at builder.save(), tflite file at line 339, coreml file at the
tf_converter.convert call). -/
inductive FsEvent where
  | mkdir (path : String)
  | writeFrozenGraph (path : String)
  | writeServingBundle (path : String)
  | writeTflite (path : String)
  | writeCoreml (path : String)
deriving DecidableEq

/-- Fatal errors export can raise: ValueError (missing checkpoint, missing
tfcoreml), AssertionError (batch-size and raveled-input asserts), and
Python's UnboundLocalError from reading a never-assigned local variable. -/
inductive ExpError where
  | valueError (msg : String)
  | assertionError (msg : String)
  | unboundLocal (var : String)
deriving DecidableEq

/-- Message of the tflite fixed-batch-size assert (export.py line 333). -/
def tflite_batch_msg : String :=
  "We need a fixed batch size for the tensorflow lite export. (e.g. set --batch_size=1)"

/-- Message of the coreml fixed-batch-size assert (export.py line 355). -/
def coreml_batch_msg : String :=
  "We need a fixed batch size for the coreml export. (e.g. set --batch_size=1)"

/-- Message of the coreml raveled-input assert (export.py line 356). -/
def coreml_raveled_msg : String :=
  "The input cannot be raveled. CoreML does not support `reshape()`."

/-- Message of the ValueError raised when importing tfcoreml fails
(export.py line 353). -/
def tfcoreml_import_msg : String :=
  "Can't import tfcoreml, so we can't create a coreml model."

/-- Checkpoint resolution (export.py lines 203-209): a directory checkpoint
path is replaced by the latest checkpoint it contains, and a directory with
no checkpoint raises a ValueError naming the directory. -/
def resolve_checkpoint (checkpoint_path : String) (env : ExportEnv) : Except ExpError String :=
  if env.checkpoint_isdir then
    match env.latest_checkpoint with
    | some p => .ok p
    | none => .error (.valueError
        ("Unable to find a model checkpoint in the directory " ++ checkpoint_path))
  else .ok checkpoint_path

/-- The coreml block of export (export.py lines 348-369), entered after the
serving / frozen-graph branches: try to import tfcoreml, assert a fixed
batch size, assert non-raveled input, then read the local save_dir (which is
`none` when the serving branch ran, since only the frozen-graph branch
assigns it — reading it then raises UnboundLocalError) and write the coreml
artifact. -/
def coreml_step (a : ExportArgs) (env : ExportEnv) (events : List FsEvent)
    (save_dir : Option String) : List FsEvent × Except ExpError Unit :=
  if a.export_coreml then
    if env.tfcoreml_available then
      match a.batch_size with
      | none => (events, .error (.assertionError coreml_batch_msg))
      | some _ =>
        if a.raveled_input then (events, .error (.assertionError coreml_raveled_msg))
        else
          match save_dir with
          | none => (events, .error (.unboundLocal "save_dir"))
          | some d => (events ++ [.writeCoreml (d ++ "/optimized_model.mlmodel")], .ok ())
    else (events, .error (.valueError tfcoreml_import_msg))
  else (events, .ok ())

/-- The export function (export.py lines 47-369) as a trace of filesystem
events plus an outcome.  In program order: create the export directory when
absent (line 71); resolve the checkpoint (lines 203-209); then either the
serving branch (lines 222-275, writing the serving bundle under
export_dir/version and leaving save_dir unassigned) or the frozen-graph
branch (lines 277-346, creating export_dir/version when absent, writing
optimized_model.pb, and, when export_tflite, asserting a fixed batch size
before writing optimized_model.tflite); finally the coreml block. -/
def export_model (a : ExportArgs) (env : ExportEnv) : List FsEvent × Except ExpError Unit :=
  let ev0 := if env.export_dir_exists then ([] : List FsEvent) else [.mkdir a.export_dir]
  match resolve_checkpoint a.checkpoint_path env with
  | .error e => (ev0, .error e)
  | .ok _ =>
    if a.export_for_serving then
      let save_path := a.export_dir ++ "/" ++ toString a.export_version
      coreml_step a env (ev0 ++ [.writeServingBundle save_path]) none
    else
      let save_dir := a.export_dir ++ "/" ++ toString a.export_version
      let ev1 := ev0 ++ (if env.save_dir_exists then [] else [.mkdir save_dir])
      let ev2 := ev1 ++ [.writeFrozenGraph (save_dir ++ "/optimized_model.pb")]
      if a.export_tflite then
        match a.batch_size with
        | none => (ev2, .error (.assertionError tflite_batch_msg))
        | some _ =>
          coreml_step a env (ev2 ++ [.writeTflite (save_dir ++ "/optimized_model.tflite")])
            (some save_dir)
      else coreml_step a env ev2 (some save_dir)

/-- Whether a filesystem event writes a file (directory creation aside). -/
def isFileWrite : FsEvent → Bool
  | .mkdir _ => false
  | _ => true

/-- Whether a filesystem event writes a tflite or coreml artifact. -/
def isAcceleratorWrite : FsEvent → Bool
  | .writeTflite _ => true
  | .writeCoreml _ => true
  | _ => false

/-- Whether a filesystem event writes a coreml artifact. -/
def isCoremlWrite : FsEvent → Bool
  | .writeCoreml _ => true
  | _ => false

/-
Helper lemmas about the decoder.
-/

/-- Lookup hits are members of the association list. -/
theorem lookupStr_mem {α : Type} (l : List (String × α)) (k : String) (v : α)
    (h : lookupStr l k = some v) : (k, v) ∈ l := by
  induction l with
  | nil => simp [lookupStr] at h
  | cons p rest ih =>
    obtain ⟨k0, v0⟩ := p
    by_cases hk : k0 = k
    · subst hk
      simp [lookupStr] at h
      simp [h]
    · simp [lookupStr, hk] at h
      simp [ih h]

/-- Every key the schema recognizes is matched by a branch of the dispatch
chain: the decoder drops no recognized key. -/
theorem chain_covers_schema (f : String → ParsedValue) (di : Bool) (k : String)
    (h : (schema k).isSome) : (decodeFeature f di k).isSome := by
  obtain ⟨t, ht⟩ := Option.isSome_iff_exists.mp h
  have hmem : (k, t) ∈ schemaEntries := lookupStr_mem _ _ _ ht
  fin_cases hmem <;> rfl

/-- When every requested key is recognized, the feature-map loop succeeds. -/
theorem build_feature_map_ok (ftf : List (String × String))
    (h : ∀ p ∈ ftf, (schema p.1).isSome) :
    ∃ m, build_feature_map ftf = .ok m := by
  induction ftf with
  | nil => exact ⟨[], rfl⟩
  | cons p rest ih =>
    obtain ⟨k, n⟩ := p
    obtain ⟨t, ht⟩ := Option.isSome_iff_exists.mp (h (k, n) (by simp))
    obtain ⟨m, hm⟩ := ih (fun q hq => h q (by simp [hq]))
    exact ⟨(k, t) :: m, by simp [build_feature_map, ht, hm]⟩

/-- When some requested key is unrecognized, the feature-map loop raises a
KeyError for an unrecognized requested key (the first such key). -/
theorem build_feature_map_err (ftf : List (String × String)) (k n : String)
    (hmem : (k, n) ∈ ftf) (hs : schema k = none) :
    ∃ k2, build_feature_map ftf = .error (.keyError k2) ∧ schema k2 = none := by
  induction ftf with
  | nil => cases hmem
  | cons p rest ih =>
    obtain ⟨k0, n0⟩ := p
    cases h0 : schema k0 with
    | none => exact ⟨k0, by simp [build_feature_map, h0], h0⟩
    | some t =>
      have hrest : (k, n) ∈ rest := by
        rcases List.mem_cons.mp hmem with heq | h2
        · exfalso
          obtain ⟨rfl, rfl⟩ := Prod.mk.injEq .. ▸ heq
          rw [hs] at h0
          cases h0
        · exact h2
      obtain ⟨k2, hb, hs2⟩ := ih hrest
      exact ⟨k2, by simp [build_feature_map, h0, hb], hs2⟩

/-- Reading a dictionary after an assignment: the assigned key reads the new
value, other keys are unchanged. -/
theorem dictLookup_insert (d : List (String × Value)) (n : String) (v : Value)
    (m : String) :
    dictLookup (dictInsert d n v) m = if n = m then some v else dictLookup d m := by
  induction d with
  | nil => simp [dictInsert, dictLookup]
  | cons p rest ih =>
    obtain ⟨a, w⟩ := p
    by_cases h1 : a = n
    · subst h1
      by_cases h2 : a = m <;> simp [dictInsert, dictLookup, h2]
    · by_cases h2 : a = m
      · have h3 : ¬ n = m := fun h4 => h1 (by rw [h2, h4])
        have h5 : ¬ m = n := fun h4 => h3 h4.symm
        simp [dictInsert, dictLookup, h1, h2, h3, h5]
      · simp [dictInsert, dictLookup, h1, h2, ih]

/-- The value the dispatch loop leaves for an output name: the value of the
last requested pair with that name that the chain matched (later iterations
overwrite earlier ones), `none` when no matched pair carries the name. -/
def lastVal (f : String → ParsedValue) (di : Bool) :
    List (String × String) → String → Option Value
  | [], _ => none
  | kn :: rest, n =>
    match lastVal f di rest n with
    | some v => some v
    | none => if kn.2 = n then decodeFeature f di kn.1 else none

/-- Characterization of the dictionary the dispatch loop builds. -/
theorem dictLookup_decodeLoop (f : String → ParsedValue) (di : Bool)
    (l : List (String × String)) (acc : List (String × Value)) (n : String) :
    dictLookup (decodeLoop f di l acc) n =
      match lastVal f di l n with
      | some v => some v
      | none => dictLookup acc n := by
  induction l generalizing acc with
  | nil => rfl
  | cons kn rest ih =>
    obtain ⟨k0, n0⟩ := kn
    simp only [decodeLoop, lastVal]
    rw [ih]
    cases hrest : lastVal f di rest n with
    | some v => simp [hrest]
    | none =>
      simp only [hrest]
      cases h3 : decodeFeature f di k0 with
      | some v =>
        simp only [dictLookup_insert]
        by_cases h2 : n0 = n
        · simp [h2]
        · simp [h2]
      | none =>
        by_cases h2 : n0 = n <;> simp [h2]

/-- The loop binds an output name exactly when some matched requested pair
carries it. -/
theorem lastVal_isSome (f : String → ParsedValue) (di : Bool)
    (l : List (String × String)) (n : String) :
    (lastVal f di l n).isSome = true ↔
      ∃ k, (k, n) ∈ l ∧ (decodeFeature f di k).isSome = true := by
  induction l with
  | nil => simp [lastVal]
  | cons kn rest ih =>
    obtain ⟨k0, n0⟩ := kn
    simp only [lastVal]
    cases hrest : lastVal f di rest n with
    | some v =>
      simp only [Option.isSome_some, true_iff]
      obtain ⟨k, hk, hd⟩ := ih.mp (by rw [hrest]; rfl)
      exact ⟨k, List.mem_cons_of_mem _ hk, hd⟩
    | none =>
      have ihn : ¬ ∃ k, (k, n) ∈ rest ∧ (decodeFeature f di k).isSome = true := by
        rw [← ih, hrest]
        simp
      by_cases h2 : n0 = n
      · subst h2
        rw [if_pos rfl]
        constructor
        · intro h
          exact ⟨k0, List.mem_cons_self _ _, h⟩
        · rintro ⟨k, hk, hd⟩
          rcases List.mem_cons.mp hk with heq | hmem
          · injection heq with ha hb
            subst ha
            exact hd
          · exact absurd ⟨k, hmem, hd⟩ ihn
      · rw [if_neg h2]
        constructor
        · intro h
          cases h
        · rintro ⟨k, hk, hd⟩
          rcases List.mem_cons.mp hk with heq | hmem
          · injection heq with ha hb
            exact absurd hb.symm h2
          · exact absurd ⟨k, hmem, hd⟩ ihn

/-- A bound value comes from some requested pair with that output name. -/
theorem lastVal_mem (f : String → ParsedValue) (di : Bool)
    (l : List (String × String)) (n : String) (v : Value)
    (h : lastVal f di l n = some v) :
    ∃ k, (k, n) ∈ l ∧ decodeFeature f di k = some v := by
  induction l with
  | nil => simp [lastVal] at h
  | cons kn rest ih =>
    obtain ⟨k0, n0⟩ := kn
    simp only [lastVal] at h
    cases hrest : lastVal f di rest n with
    | some w =>
      rw [hrest] at h
      have h3 : some w = some v := h
      injection h3 with h4
      subst h4
      obtain ⟨k, hk, hd⟩ := ih hrest
      exact ⟨k, List.mem_cons_of_mem _ hk, hd⟩
    | none =>
      rw [hrest] at h
      have h3 : (if n0 = n then decodeFeature f di k0 else none) = some v := h
      by_cases h2 : n0 = n
      · subst h2
        rw [if_pos rfl] at h3
        exact ⟨k0, List.mem_cons_self _ _, h3⟩
      · rw [if_neg h2] at h3
        cases h3

/-- A chain branch that returns the sparse .values, evaluated on a record
whose parse result at that key is sparse. -/
theorem decodeFeature_values_of (f : String → ParsedValue) (di : Bool) (k : String)
    (hr : decodeFeature f di k = some (.flatValues (sparseValues (f k))))
    (idx : List Nat) (vals : List Datum) (shp : Nat)
    (hf : f k = .sparse idx vals shp) :
    decodeFeature f di k = some (.flatValues vals) := by
  rw [hr, hf]
  rfl

/-- A sample parse-result function used to instantiate the universally
quantified decoder theorems at a concrete record. -/
def sampleParse : String → ParsedValue := fun k =>
  if k = "image/object/area" then .sparse [0, 1] [.flt 5, .flt 6] 2
  else if k = "image/encoded" then .dense (.bytes ⟨10, 20, 4⟩)
  else .dense (.int 7)

/-- C1: when the features_to_fetch list contains a feature key the fixed
schema does not recognize, decode_serialized_example fails with a lookup
error (a KeyError for an unrecognized key) and in particular never returns
a result dictionary holding a default for that key. -/
theorem C1_unrecognized_key_is_lookup_error (f : String → ParsedValue)
    (ftf : List (String × String)) (di : Bool) (k n : String)
    (hmem : (k, n) ∈ ftf) (hs : schema k = none) :
    ∃ k2, decode_serialized_example f ftf di = .error (.keyError k2)
      ∧ schema k2 = none := by
  obtain ⟨k2, hb, hs2⟩ := build_feature_map_err ftf k n hmem hs
  exact ⟨k2, by simp [decode_serialized_example, hb], hs2⟩

/-- Witness for C1 at a concrete call with an unrecognized key. -/
theorem C1_witness :
    ∃ k2, decode_serialized_example sampleParse [("image/bogus", "b")] true
        = .error (.keyError k2) ∧ schema k2 = none :=
  C1_unrecognized_key_is_lookup_error sampleParse [("image/bogus", "b")] true
    "image/bogus" "b" (by simp) (by decide)

/-- C6: when every requested key is recognized, the decoder succeeds, the
keys of the returned mapping are exactly the caller-chosen output names of
the requested pairs, and each output name is bound to the decoded value of
a requested pair carrying that name: no recognized requested key is
silently omitted. -/
theorem C6_all_recognized_keys_bound (f : String → ParsedValue)
    (ftf : List (String × String)) (di : Bool)
    (h : ∀ p ∈ ftf, (schema p.1).isSome = true) :
    ∃ out, decode_serialized_example f ftf di = .ok out
      ∧ (∀ n, (dictLookup out n).isSome = true ↔ ∃ k, (k, n) ∈ ftf)
      ∧ (∀ k n, (k, n) ∈ ftf →
          ∃ k2 v, (k2, n) ∈ ftf ∧ decodeFeature f di k2 = some v
            ∧ dictLookup out n = some v) := by
  obtain ⟨m, hm⟩ := build_feature_map_ok ftf h
  refine ⟨decodeLoop f di ftf [],
    by simp [decode_serialized_example, hm], ?_, ?_⟩
  · intro n
    rw [dictLookup_decodeLoop]
    cases hl : lastVal f di ftf n with
    | none =>
      simp only [dictLookup]
      constructor
      · intro hfalse
        cases hfalse
      · rintro ⟨k, hk⟩
        have hsome : (lastVal f di ftf n).isSome = true :=
          (lastVal_isSome f di ftf n).mpr
            ⟨k, hk, chain_covers_schema f di k (h (k, n) hk)⟩
        rw [hl] at hsome
        cases hsome
    | some v =>
      simp only [Option.isSome_some, true_iff]
      obtain ⟨k, hk, -⟩ := lastVal_mem f di ftf n v hl
      exact ⟨k, hk⟩
  · intro k n hkn
    have hsome : (lastVal f di ftf n).isSome = true :=
      (lastVal_isSome f di ftf n).mpr
        ⟨k, hkn, chain_covers_schema f di k (h (k, n) hkn)⟩
    obtain ⟨v, hv⟩ := Option.isSome_iff_exists.mp hsome
    obtain ⟨k2, hk2, hd⟩ := lastVal_mem f di ftf n v hv
    refine ⟨k2, v, hk2, hd, ?_⟩
    rw [dictLookup_decodeLoop, hv]

/-- Witness for C6 at a concrete request list of recognized keys. -/
theorem C6_witness :
    ∃ out, decode_serialized_example sampleParse
        [("image/height", "h"), ("image/object/area", "areas")] true = .ok out
      ∧ (∀ n, (dictLookup out n).isSome = true ↔
          ∃ k, (k, n) ∈ [("image/height", "h"), ("image/object/area", "areas")])
      ∧ (∀ k n, (k, n) ∈ [("image/height", "h"), ("image/object/area", "areas")] →
          ∃ k2 v, (k2, n) ∈ [("image/height", "h"), ("image/object/area", "areas")]
            ∧ decodeFeature sampleParse true k2 = some v
            ∧ dictLookup out n = some v) :=
  C6_all_recognized_keys_bound sampleParse
    [("image/height", "h"), ("image/object/area", "areas")] true (by decide)

/-- C7: every variable-length schema key is returned as the flat .values
sequence of its sparse parse result, not as a structured tensor. -/
theorem C7_varlen_keys_return_flat_values (f : String → ParsedValue) (di : Bool)
    (k : String) (t : FeatureType) (hs : schema k = some t)
    (hv : isVarLen t = true)
    (idx : List Nat) (vals : List Datum) (shp : Nat)
    (hf : f k = .sparse idx vals shp) :
    decodeFeature f di k = some (.flatValues vals) := by
  have hmem : (k, t) ∈ schemaEntries := lookupStr_mem _ _ _ hs
  fin_cases hmem <;>
    first
      | exact absurd hv (by decide)
      | exact decodeFeature_values_of f di _ (by rfl) idx vals shp hf

/-- Witness for C7 at a concrete variable-length key. -/
theorem C7_witness :
    decodeFeature sampleParse true "image/object/area"
      = some (.flatValues [.flt 5, .flt 6]) :=
  C7_varlen_keys_return_flat_values sampleParse true "image/object/area"
    .varFloat (by decide) (by decide) [0, 1] [.flt 5, .flt 6] 2 (by decide)

/-- The dispatch loop does not depend on decode_image when it agrees on
every requested key. -/
theorem decodeLoop_congr (f : String → ParsedValue) (d1 d2 : Bool)
    (l : List (String × String)) (acc : List (String × Value))
    (h : ∀ p ∈ l, decodeFeature f d1 p.1 = decodeFeature f d2 p.1) :
    decodeLoop f d1 l acc = decodeLoop f d2 l acc := by
  induction l generalizing acc with
  | nil => rfl
  | cons kn rest ih =>
    simp only [decodeLoop]
    rw [h kn (List.mem_cons_self _ _)]
    exact ih _ (fun p hp => h p (List.mem_cons_of_mem _ hp))

/-- C8: decode_image defaults to on; with it on the image-bytes field is
returned as a decoded 3-channel pixel tensor and with it off as the raw
parse result (the bytes string); every key other than image/encoded decodes
identically under both settings, and so does any request list avoiding
image/encoded. -/
theorem C8_decode_image_controls_only_encoded (f : String → ParsedValue)
    (ftf : List (String × String)) :
    decode_serialized_example_default f ftf = decode_serialized_example f ftf true
    ∧ decodeFeature f true "image/encoded"
        = some (.image (decode_jpeg (f "image/encoded") 3))
    ∧ decodeFeature f false "image/encoded" = some (.tensor (f "image/encoded"))
    ∧ (∀ k, k ≠ "image/encoded" →
        ∀ d1 d2 : Bool, decodeFeature f d1 k = decodeFeature f d2 k)
    ∧ ((∀ p ∈ ftf, p.1 ≠ "image/encoded") →
        decode_serialized_example f ftf true = decode_serialized_example f ftf false) := by
  refine ⟨rfl, rfl, rfl, ?_, ?_⟩
  · intro k hk d1 d2
    unfold decodeFeature
    simp only [if_neg hk]
  · intro hno
    unfold decode_serialized_example
    cases hb : build_feature_map ftf with
    | error e => rfl
    | ok m =>
      have := decodeLoop_congr f true false ftf []
        (fun p hp => by
          unfold decodeFeature
          simp only [if_neg (hno p hp)])
      rw [this]

/-- Witness for C8 at a concrete record and request list. -/
theorem C8_witness :
    decode_serialized_example_default sampleParse [("image/height", "h")]
        = decode_serialized_example sampleParse [("image/height", "h")] true
    ∧ decodeFeature sampleParse true "image/encoded"
        = some (.image (decode_jpeg (sampleParse "image/encoded") 3))
    ∧ decodeFeature sampleParse false "image/encoded"
        = some (.tensor (sampleParse "image/encoded"))
    ∧ (∀ k, k ≠ "image/encoded" →
        ∀ d1 d2 : Bool, decodeFeature sampleParse d1 k = decodeFeature sampleParse d2 k)
    ∧ ((∀ p ∈ [("image/height", "h")], p.1 ≠ "image/encoded") →
        decode_serialized_example sampleParse [("image/height", "h")] true
          = decode_serialized_example sampleParse [("image/height", "h")] false) :=
  C8_decode_image_controls_only_encoded sampleParse [("image/height", "h")]

/-- C5: requesting the image-bytes field with decoding enabled yields a
3-channel pixel tensor, and the exporter preprocessing collapses source
images of any channel count (grayscale, grayscale plus alpha, RGB, RGBA and
beyond, including rank-2 grayscale tensors) to 3 channels. -/
theorem C5_decoded_images_have_three_channels (f : String → ParsedValue)
    (h w c targetH targetW : Nat) (hc : 1 ≤ c) :
    numChannels (preprocess_image (.r3 h w c) targetH targetW) = 3
    ∧ numChannels (preprocess_image (.r2 h w) targetH targetW) = 3
    ∧ decodeFeature f true "image/encoded"
        = some (.image (decode_jpeg (f "image/encoded") 3))
    ∧ (∀ img : Image, (decode_jpeg (.dense (.bytes img)) 3).channels = 3) := by
  refine ⟨?_, rfl, rfl, fun img => rfl⟩
  rcases c with _ | _ | _ | _ | n
  · exact absurd hc (by decide)
  · rfl
  · rfl
  · rfl
  · have h1 : ¬ (n + 1 + 1 + 1 + 1 = 1) := by omega
    have h2 : ¬ (n + 1 + 1 + 1 + 1 = 2) := by omega
    have h3 : 3 < n + 1 + 1 + 1 + 1 := by omega
    have h4 : Nat.min (n + 1 + 1 + 1 + 1) 3 = 3 := Nat.min_eq_right (by omega)
    simp [preprocess_image, tensorRank, numChannels, expandDimsLast,
      grayscale_to_rgb, takeFirstChannel, firstThreeChannels, resize_bilinear,
      h1, h2, h3, h4]

/-- Witness for C5 at a concrete 4-channel (RGBA) image shape. -/
theorem C5_witness :
    numChannels (preprocess_image (.r3 9 11 4) 77 77) = 3
    ∧ numChannels (preprocess_image (.r2 9 11) 77 77) = 3
    ∧ decodeFeature sampleParse true "image/encoded"
        = some (.image (decode_jpeg (sampleParse "image/encoded") 3))
    ∧ (∀ img : Image, (decode_jpeg (.dense (.bytes img)) 3).channels = 3) :=
  C5_decoded_images_have_three_channels sampleParse 9 11 4 77 77 (by decide)

/-
Helper lemmas about the exporter.
-/

/-- Checkpoint resolution succeeds when the path is not a directory or the
directory contains a checkpoint. -/
theorem resolve_checkpoint_ok (path : String) (env : ExportEnv)
    (hok : env.checkpoint_isdir = false ∨ env.latest_checkpoint.isSome = true) :
    ∃ p, resolve_checkpoint path env = .ok p := by
  rcases hok with h | h
  · exact ⟨path, by simp [resolve_checkpoint, h]⟩
  · obtain ⟨q, hq⟩ := Option.isSome_iff_exists.mp h
    cases hd : env.checkpoint_isdir
    · exact ⟨path, by simp [resolve_checkpoint, hd]⟩
    · exact ⟨q, by simp [resolve_checkpoint, hd, hq]⟩

/-- C4: a directory checkpoint path resolves to the latest checkpoint the
framework finds there, and a directory with no checkpoint makes export fail
with a ValueError naming the directory (no checkpoint found). -/
theorem C4_checkpoint_directory_resolution (a : ExportArgs) (env : ExportEnv)
    (hdir : env.checkpoint_isdir = true) :
    (∀ p, env.latest_checkpoint = some p →
        resolve_checkpoint a.checkpoint_path env = .ok p)
    ∧ (env.latest_checkpoint = none →
        resolve_checkpoint a.checkpoint_path env
          = .error (.valueError ("Unable to find a model checkpoint in the directory "
              ++ a.checkpoint_path))
        ∧ (export_model a env).2
          = .error (.valueError ("Unable to find a model checkpoint in the directory "
              ++ a.checkpoint_path))) := by
  constructor
  · intro p hp
    simp [resolve_checkpoint, hdir, hp]
  · intro hn
    have hres : resolve_checkpoint a.checkpoint_path env
        = .error (.valueError ("Unable to find a model checkpoint in the directory "
            ++ a.checkpoint_path)) := by
      simp [resolve_checkpoint, hdir, hn]
    exact ⟨hres, by simp [export_model, hres]⟩

/-- Witness for C4 at a concrete empty checkpoint directory. -/
theorem C4_witness :
    (∀ p, (ExportEnv.mk true true none true true).latest_checkpoint = some p →
        resolve_checkpoint (ExportArgs.mk "ckdir" "ex" 1 false false false false false
            none false).checkpoint_path (ExportEnv.mk true true none true true) = .ok p)
    ∧ ((ExportEnv.mk true true none true true).latest_checkpoint = none →
        resolve_checkpoint (ExportArgs.mk "ckdir" "ex" 1 false false false false false
            none false).checkpoint_path (ExportEnv.mk true true none true true)
          = .error (.valueError ("Unable to find a model checkpoint in the directory "
              ++ (ExportArgs.mk "ckdir" "ex" 1 false false false false false
                  none false).checkpoint_path))
        ∧ (export_model (ExportArgs.mk "ckdir" "ex" 1 false false false false false
              none false) (ExportEnv.mk true true none true true)).2
          = .error (.valueError ("Unable to find a model checkpoint in the directory "
              ++ (ExportArgs.mk "ckdir" "ex" 1 false false false false false
                  none false).checkpoint_path))) :=
  C4_checkpoint_directory_resolution
    (ExportArgs.mk "ckdir" "ex" 1 false false false false false none false)
    (ExportEnv.mk true true none true true) rfl

/-- C9: requesting the coreml format when the tfcoreml dependency cannot be
imported always makes export fail; when the checkpoint resolves and the
failure is not pre-empted by the tflite fixed-batch-size assert, the error
is the descriptive ValueError about the missing import. -/
theorem C9_coreml_missing_dependency_fails (a : ExportArgs) (env : ExportEnv)
    (hc : a.export_coreml = true) (hav : env.tfcoreml_available = false) :
    (∃ e, (export_model a env).2 = .error e)
    ∧ ((env.checkpoint_isdir = false ∨ env.latest_checkpoint.isSome = true) →
        (a.export_for_serving = true ∨ a.export_tflite = false ∨ a.batch_size ≠ none) →
        (export_model a env).2 = .error (.valueError tfcoreml_import_msg)) := by
  cases hres : resolve_checkpoint a.checkpoint_path env with
  | error e =>
    refine ⟨⟨e, by simp [export_model, hres]⟩, fun h1 _ => ?_⟩
    obtain ⟨p, hp⟩ := resolve_checkpoint_ok a.checkpoint_path env h1
    rw [hp] at hres
    cases hres
  | ok p =>
    cases hserv : a.export_for_serving with
    | true =>
      constructor
      · exact ⟨.valueError tfcoreml_import_msg,
          by simp [export_model, hres, hserv, coreml_step, hc, hav]⟩
      · intro _ _
        simp [export_model, hres, hserv, coreml_step, hc, hav]
    | false =>
      cases htf : a.export_tflite with
      | true =>
        cases hb : a.batch_size with
        | none =>
          refine ⟨⟨.assertionError tflite_batch_msg,
            by simp [export_model, hres, hserv, htf, hb]⟩, fun _ h2 => ?_⟩
          rcases h2 with h2 | h2 | h2
          · exact Bool.noConfusion h2
          · exact Bool.noConfusion h2
          · exact absurd rfl h2
        | some b =>
          constructor
          · exact ⟨.valueError tfcoreml_import_msg,
              by simp [export_model, hres, hserv, htf, hb, coreml_step, hc, hav]⟩
          · intro _ _
            simp [export_model, hres, hserv, htf, hb, coreml_step, hc, hav]
      | false =>
        constructor
        · exact ⟨.valueError tfcoreml_import_msg,
            by simp [export_model, hres, hserv, htf, coreml_step, hc, hav]⟩
        · intro _ _
          simp [export_model, hres, hserv, htf, coreml_step, hc, hav]

/-- Witness for C9 at a concrete invocation with tfcoreml missing. -/
theorem C9_witness :
    (∃ e, (export_model
        (ExportArgs.mk "ck" "ex" 1 false false true false false none false)
        (ExportEnv.mk true false none false true)).2 = .error e)
    ∧ (((ExportEnv.mk true false none false true).checkpoint_isdir = false ∨
          (ExportEnv.mk true false none false true).latest_checkpoint.isSome = true) →
        ((ExportArgs.mk "ck" "ex" 1 false false true false false
            none false).export_for_serving = true ∨
          (ExportArgs.mk "ck" "ex" 1 false false true false false
            none false).export_tflite = false ∨
          (ExportArgs.mk "ck" "ex" 1 false false true false false
            none false).batch_size ≠ none) →
        (export_model (ExportArgs.mk "ck" "ex" 1 false false true false false none false)
          (ExportEnv.mk true false none false true)).2
          = .error (.valueError tfcoreml_import_msg)) :=
  C9_coreml_missing_dependency_fails
    (ExportArgs.mk "ck" "ex" 1 false false true false false none false)
    (ExportEnv.mk true false none false true) rfl rfl

/-- C2 counterexample: a non-serving tflite export with batch_size = None
does fail (on the fixed-batch-size assert), but only after the frozen graph
file has been written, so it is not the case that no file is written before
the failure. -/
theorem C2_counterexample :
    (export_model (ExportArgs.mk "ck" "ex" 1 false true false false false none false)
        (ExportEnv.mk true false none true true)).2
      = .error (.assertionError tflite_batch_msg)
    ∧ (export_model (ExportArgs.mk "ck" "ex" 1 false true false false false none false)
        (ExportEnv.mk true false none true true)).1.any isFileWrite = true :=
  ⟨rfl, rfl⟩

/-- C2 amended: with batch_size = None, requesting coreml, or tflite outside
serving mode (in serving mode the tflite flag is ignored), makes the export
fail, and no tflite or coreml artifact is ever written; however, the frozen
graph or serving bundle may already have been written before the failure. -/
theorem C2_amended_flexible_batch_accel_fails (a : ExportArgs) (env : ExportEnv)
    (hb : a.batch_size = none)
    (hreq : a.export_coreml = true ∨ (a.export_tflite = true ∧ a.export_for_serving = false)) :
    (∃ e, (export_model a env).2 = .error e)
    ∧ (export_model a env).1.all (fun ev => !(isAcceleratorWrite ev)) = true := by
  cases hres : resolve_checkpoint a.checkpoint_path env with
  | error e =>
    refine ⟨⟨e, by simp [export_model, hres]⟩, ?_⟩
    cases hde : env.export_dir_exists <;>
      simp [export_model, hres, hde, isAcceleratorWrite]
  | ok p =>
    cases hserv : a.export_for_serving with
    | true =>
      have hc : a.export_coreml = true := by
        rcases hreq with h | ⟨-, h2⟩
        · exact h
        · rw [hserv] at h2
          cases h2
      cases hav : env.tfcoreml_available with
      | true =>
        refine ⟨⟨.assertionError coreml_batch_msg,
          by simp [export_model, hres, hserv, coreml_step, hc, hav, hb]⟩, ?_⟩
        cases hde : env.export_dir_exists <;>
          simp [export_model, hres, hserv, coreml_step, hc, hav, hb, hde, isAcceleratorWrite]
      | false =>
        refine ⟨⟨.valueError tfcoreml_import_msg,
          by simp [export_model, hres, hserv, coreml_step, hc, hav]⟩, ?_⟩
        cases hde : env.export_dir_exists <;>
          simp [export_model, hres, hserv, coreml_step, hc, hav, hde, isAcceleratorWrite]
    | false =>
      cases htf : a.export_tflite with
      | true =>
        refine ⟨⟨.assertionError tflite_batch_msg,
          by simp [export_model, hres, hserv, htf, hb]⟩, ?_⟩
        cases hde : env.export_dir_exists <;> cases hsde : env.save_dir_exists <;>
          simp [export_model, hres, hserv, htf, hb, hde, hsde, isAcceleratorWrite]
      | false =>
        have hc : a.export_coreml = true := by
          rcases hreq with h | ⟨h2, -⟩
          · exact h
          · rw [htf] at h2
            cases h2
        cases hav : env.tfcoreml_available with
        | true =>
          refine ⟨⟨.assertionError coreml_batch_msg,
            by simp [export_model, hres, hserv, htf, coreml_step, hc, hav, hb]⟩, ?_⟩
          cases hde : env.export_dir_exists <;> cases hsde : env.save_dir_exists <;>
            simp [export_model, hres, hserv, htf, coreml_step, hc, hav, hb, hde, hsde,
              isAcceleratorWrite]
        | false =>
          refine ⟨⟨.valueError tfcoreml_import_msg,
            by simp [export_model, hres, hserv, htf, coreml_step, hc, hav]⟩, ?_⟩
          cases hde : env.export_dir_exists <;> cases hsde : env.save_dir_exists <;>
            simp [export_model, hres, hserv, htf, coreml_step, hc, hav, hde, hsde,
              isAcceleratorWrite]

/-- Witness for the amended C2 at a concrete coreml invocation without a
fixed batch size. -/
theorem C2_witness :
    (∃ e, (export_model (ExportArgs.mk "ck" "ex" 1 false false true false false none false)
        (ExportEnv.mk true false none true true)).2 = .error e)
    ∧ (export_model (ExportArgs.mk "ck" "ex" 1 false false true false false none false)
        (ExportEnv.mk true false none true true)).1.all
        (fun ev => !(isAcceleratorWrite ev)) = true :=
  C2_amended_flexible_batch_accel_fails
    (ExportArgs.mk "ck" "ex" 1 false false true false false none false)
    (ExportEnv.mk true false none true true) rfl (Or.inl rfl)

/-- C3 counterexample: a non-serving coreml export with raveled input does
fail (on the raveled-input assert), but only after the frozen graph file has
been written, so it is not the case that no file is written before the
failure. -/
theorem C3_counterexample :
    (export_model (ExportArgs.mk "ck" "ex" 1 false false true false false (some 1) true)
        (ExportEnv.mk true false none true true)).2
      = .error (.assertionError coreml_raveled_msg)
    ∧ (export_model (ExportArgs.mk "ck" "ex" 1 false false true false false (some 1) true)
        (ExportEnv.mk true false none true true)).1.any isFileWrite = true :=
  ⟨rfl, rfl⟩

/-- C3 amended: requesting coreml with raveled input makes the export fail,
and no coreml artifact is ever written; however, other files (the frozen
graph, a tflite file, or the serving bundle) may already have been written
before the failure. -/
theorem C3_amended_raveled_coreml_fails (a : ExportArgs) (env : ExportEnv)
    (hc : a.export_coreml = true) (hr : a.raveled_input = true) :
    (∃ e, (export_model a env).2 = .error e)
    ∧ (export_model a env).1.all (fun ev => !(isCoremlWrite ev)) = true := by
  cases hres : resolve_checkpoint a.checkpoint_path env with
  | error e =>
    refine ⟨⟨e, by simp [export_model, hres]⟩, ?_⟩
    cases hde : env.export_dir_exists <;>
      simp [export_model, hres, hde, isCoremlWrite]
  | ok p =>
    cases hserv : a.export_for_serving with
    | true =>
      cases hav : env.tfcoreml_available with
      | true =>
        cases hb : a.batch_size with
        | none =>
          refine ⟨⟨.assertionError coreml_batch_msg,
            by simp [export_model, hres, hserv, coreml_step, hc, hav, hb]⟩, ?_⟩
          cases hde : env.export_dir_exists <;>
            simp [export_model, hres, hserv, coreml_step, hc, hav, hb, hde, isCoremlWrite]
        | some b =>
          refine ⟨⟨.assertionError coreml_raveled_msg,
            by simp [export_model, hres, hserv, coreml_step, hc, hav, hb, hr]⟩, ?_⟩
          cases hde : env.export_dir_exists <;>
            simp [export_model, hres, hserv, coreml_step, hc, hav, hb, hr, hde, isCoremlWrite]
      | false =>
        refine ⟨⟨.valueError tfcoreml_import_msg,
          by simp [export_model, hres, hserv, coreml_step, hc, hav]⟩, ?_⟩
        cases hde : env.export_dir_exists <;>
          simp [export_model, hres, hserv, coreml_step, hc, hav, hde, isCoremlWrite]
    | false =>
      cases htf : a.export_tflite with
      | true =>
        cases hb : a.batch_size with
        | none =>
          refine ⟨⟨.assertionError tflite_batch_msg,
            by simp [export_model, hres, hserv, htf, hb]⟩, ?_⟩
          cases hde : env.export_dir_exists <;> cases hsde : env.save_dir_exists <;>
            simp [export_model, hres, hserv, htf, hb, hde, hsde, isCoremlWrite]
        | some b =>
          cases hav : env.tfcoreml_available with
          | true =>
            refine ⟨⟨.assertionError coreml_raveled_msg,
              by simp [export_model, hres, hserv, htf, hb, coreml_step, hc, hav, hr]⟩, ?_⟩
            cases hde : env.export_dir_exists <;> cases hsde : env.save_dir_exists <;>
              simp [export_model, hres, hserv, htf, hb, coreml_step, hc, hav, hr, hde,
                hsde, isCoremlWrite]
          | false =>
            refine ⟨⟨.valueError tfcoreml_import_msg,
              by simp [export_model, hres, hserv, htf, hb, coreml_step, hc, hav]⟩, ?_⟩
            cases hde : env.export_dir_exists <;> cases hsde : env.save_dir_exists <;>
              simp [export_model, hres, hserv, htf, hb, coreml_step, hc, hav, hde,
                hsde, isCoremlWrite]
      | false =>
        cases hav : env.tfcoreml_available with
        | true =>
          cases hb : a.batch_size with
          | none =>
            refine ⟨⟨.assertionError coreml_batch_msg,
              by simp [export_model, hres, hserv, htf, coreml_step, hc, hav, hb]⟩, ?_⟩
            cases hde : env.export_dir_exists <;> cases hsde : env.save_dir_exists <;>
              simp [export_model, hres, hserv, htf, coreml_step, hc, hav, hb, hde,
                hsde, isCoremlWrite]
          | some b =>
            refine ⟨⟨.assertionError coreml_raveled_msg,
              by simp [export_model, hres, hserv, htf, coreml_step, hc, hav, hb, hr]⟩, ?_⟩
            cases hde : env.export_dir_exists <;> cases hsde : env.save_dir_exists <;>
              simp [export_model, hres, hserv, htf, coreml_step, hc, hav, hb, hr, hde,
                hsde, isCoremlWrite]
        | false =>
          refine ⟨⟨.valueError tfcoreml_import_msg,
            by simp [export_model, hres, hserv, htf, coreml_step, hc, hav]⟩, ?_⟩
          cases hde : env.export_dir_exists <;> cases hsde : env.save_dir_exists <;>
            simp [export_model, hres, hserv, htf, coreml_step, hc, hav, hde, hsde,
              isCoremlWrite]

/-- Witness for the amended C3 at a concrete raveled coreml invocation. -/
theorem C3_witness :
    (∃ e, (export_model (ExportArgs.mk "ck" "ex" 1 false false true false false (some 1) true)
        (ExportEnv.mk true false none true true)).2 = .error e)
    ∧ (export_model (ExportArgs.mk "ck" "ex" 1 false false true false false (some 1) true)
        (ExportEnv.mk true false none true true)).1.all
        (fun ev => !(isCoremlWrite ev)) = true :=
  C3_amended_raveled_coreml_fails
    (ExportArgs.mk "ck" "ex" 1 false false true false false (some 1) true)
    (ExportEnv.mk true false none true true) rfl rfl

/-- C10 counterexample: with serving and coreml both requested but
batch_size = None, the call fails on the coreml fixed-batch-size assert
(which precedes the save_dir read), not with an undefined-variable error,
so the claimed failure mode does not hold for every such invocation. -/
theorem C10_counterexample :
    (export_model (ExportArgs.mk "ck" "ex" 1 true false true false false none false)
        (ExportEnv.mk true false none true true)).2
      = .error (.assertionError coreml_batch_msg)
    ∧ (export_model (ExportArgs.mk "ck" "ex" 1 true false true false false none false)
        (ExportEnv.mk true false none true true)).2
      ≠ .error (.unboundLocal "save_dir") := by
  refine ⟨rfl, fun hcontra => ?_⟩
  have h2 : (Except.error (ExpError.assertionError coreml_batch_msg) : Except ExpError Unit)
      = Except.error (ExpError.unboundLocal "save_dir") := hcontra
  simp at h2

/-- C10 amended: when serving and coreml are both requested, the checkpoint
resolves, tfcoreml imports, a fixed batch size is given and the input is not
raveled, the coreml branch reads the local variable save_dir, which the
serving branch never assigned, and the call fails with an undefined-variable
(UnboundLocalError) failure on save_dir instead of ignoring the coreml flag
as the CLI help text states. -/
theorem C10_amended_serving_coreml_unbound_save_dir (a : ExportArgs) (env : ExportEnv)
    (hs : a.export_for_serving = true) (hc : a.export_coreml = true)
    (hav : env.tfcoreml_available = true) (b : Int) (hb : a.batch_size = some b)
    (hr : a.raveled_input = false)
    (hok : env.checkpoint_isdir = false ∨ env.latest_checkpoint.isSome = true) :
    (export_model a env).2 = .error (.unboundLocal "save_dir") := by
  obtain ⟨p, hp⟩ := resolve_checkpoint_ok a.checkpoint_path env hok
  simp [export_model, hp, hs, coreml_step, hc, hav, hb, hr]

/-- Witness for the amended C10 at a concrete serving-plus-coreml
invocation. -/
theorem C10_witness :
    (export_model (ExportArgs.mk "ck" "ex" 1 true false true false false (some 1) false)
        (ExportEnv.mk true false none true true)).2
      = .error (.unboundLocal "save_dir") :=
  C10_amended_serving_coreml_unbound_save_dir
    (ExportArgs.mk "ck" "ex" 1 true false true false false (some 1) false)
    (ExportEnv.mk true false none true true) rfl rfl rfl 1 rfl rfl (Or.inl rfl)

end TfClassification
